import Mathlib

set_option maxHeartbeats 1600000

/-!
Verification of the GCP-Bucket-Loader repository.

The repository contains two program variants:
* `main.go` — the upload-only variant ("GCP-Bucket-Uploader v1.0"), embedded
  below as `Loader.uploaderMain` / `Loader.uploaderUploadFile`;
* the dual-direction variant ("GCP-Bucket-Loader v2.1"), embedded below as
  `Loader.loaderMain` / `Loader.uploadFile` / `Loader.downloadFile` together
  with `Loader.createContext` and `Loader.createClient`.

The programs are straight-line sequences of external effects, so we embed each
one as a function from a configuration (the parsed flags) and a `World`
oracle (the outcomes of the external operations: client construction, local
file open/create, metadata fetches, byte copies, stream closes) to the trace
of observable events the run produces, in order.

Two points of Go semantics that the embedding encodes faithfully:
* `log.Fatalln` prints the message and then calls `os.Exit(1)`; `os.Exit`
  terminates the process immediately and deferred function calls are NOT run.
  So on every fatal path the trace ends at the fatal event.
* On a normal (non-fatal) return from a function, the deferred calls run in
  LIFO order of their registration.  In `uploadFile` the registration order is
  `cancel`, `client.Close`, `file.Close`, `writer.Close`, so a successful
  upload ends with `writerClose, fileClose, clientClose, cancelCall`; in
  `downloadFile` the last deferred call is `reader.Close` instead.
-/

namespace Loader

/-- Object metadata returned by a successful `obj.Attrs(ctx)` call:
byte size, CRC32C checksum and generation, as in the storage SDK. -/
structure ObjAttrs where
  size : Int
  crc32c : Int
  generation : Int
deriving DecidableEq

/-- Outcome of `bkt.Attrs(ctx)`: success, `storage.ErrBucketNotExist`,
or any other error. -/
inductive BucketFetch where
  | ok : BucketFetch
  | notExist : BucketFetch
  | otherErr : BucketFetch
deriving DecidableEq

/-- Outcome of `obj.Attrs(ctx)`: success with the attributes,
`storage.ErrObjectNotExist`, or any other error. -/
inductive ObjFetch where
  | ok : ObjAttrs → ObjFetch
  | notExist : ObjFetch
  | otherErr : ObjFetch
deriving DecidableEq

/-- Oracle for the outcomes of all external operations a single run can
perform.  Each field corresponds to one call site in the source. -/
structure World where
  /-- `storage.NewClient` succeeds. -/
  clientOk : Bool
  /-- `os.Open(filePath)` succeeds (upload source file). -/
  openOk : Bool
  /-- `os.Stat(filePath)` returns without error (download target path). -/
  statExists : Bool
  /-- the stat result satisfies `info.Mode().IsRegular()`. -/
  statIsRegular : Bool
  /-- `info.Size()` of the pre-existing local file. -/
  existingFileSize : Int
  /-- `os.Create(filePath)` succeeds. -/
  createOk : Bool
  /-- outcome of `bkt.Attrs(ctx)`. -/
  bucketAttrs : BucketFetch
  /-- outcome of the pre-transfer `obj.Attrs(ctx)`. -/
  objAttrsPre : ObjFetch
  /-- `io.Copy(writer, file)` succeeds (upload). -/
  copyOk : Bool
  /-- size in bytes of the local source file; on a successful upload
  `io.Copy` streams the whole file and returns this count. -/
  localFileSize : Int
  /-- the explicit `writer.Close()` succeeds. -/
  writerCloseOk : Bool
  /-- outcome of the post-transfer `obj.Attrs(ctx)` (upload, extra checks). -/
  objAttrsPost : ObjFetch
  /-- `obj.NewReader(ctx)` succeeds (download). -/
  readerOk : Bool
  /-- size in bytes of the remote object; on a successful download
  `io.Copy` streams the whole object and returns this count. -/
  remoteSize : Int
  /-- `io.Copy(file, reader)` succeeds (download). -/
  dlCopyOk : Bool
  /-- the explicit `reader.Close()` succeeds. -/
  readerCloseOk : Bool

/-- Parsed flags of the dual-direction variant (`AppFlagStruct` in the
source).  `timeoutValue` is a `flag.Uint`, hence a natural number. -/
structure AppFlagStruct where
  actionType : String
  filePath : String
  bucketName : String
  objectPath : String
  keyPath : String
  contentType : String
  extraChecks : Bool
  publicRequest : Bool
  timeoutValue : Nat
deriving DecidableEq

/-- Parsed flags of the upload-only variant (`AppFlagStruct` in `main.go`). -/
structure UploaderFlagStruct where
  filePath : String
  contentType : String
  bucketName : String
  objectPath : String
  keyPath : String
  extraChecks : Bool
deriving DecidableEq

/-- Observable events of a run, in program order.  A `fatal*` event models a
`log.Fatalln` call: the message is printed and the process exits non-zero
immediately, so a `fatal*` event is always the last event of its trace. -/
inductive Event where
  | helloMsg : Event
  | fatalMandatoryParams : Event
  | fatalMissingKey : Event
  | warnKeyDiscarded : Event
  | ctxCreate : Int → Event
  | clientAnon : Event
  | clientAuth : String → Event
  | fatalClientCreate : Event
  | fatalWrongAction : Event
  | fileOpen : String → Event
  | fatalFileOpen : Event
  | statFile : String → Event
  | warnFileOverride : Int → Event
  | warnPathNotRegular : Event
  | fileCreate : String → Event
  | fatalFileCreate : Event
  | bucketAttrsFetch : Event
  | fatalBucketNotExist : Event
  | fatalBucketFetch : Event
  | objAttrsFetch : Event
  | warnObjectCreateNew : Event
  | warnObjectOverride : Int → Int → Int → Event
  | fatalObjectNotExist : Event
  | fatalObjectFetch : Event
  | warnObjectExists : Int → Int → Int → Event
  | writerNew : Event
  | setContentType : String → Event
  | copy : Int → Event
  | fatalCopy : Event
  | writerClose : Event
  | fatalWriterClose : Event
  | readerNew : Event
  | fatalReaderNew : Event
  | readerClose : Event
  | fatalReaderClose : Event
  | successUploadExtra : Int → Int → Int → Event
  | successUploadBytes : Int → Event
  | successDownloadBytes : Int → Event
  | cancelCall : Event
  | clientClose : Event
  | fileClose : Event
  | byeMsg : Event
deriving DecidableEq

/-- Event models a `log.Fatalln` call (process terminates non-zero). -/
def isFatal : Event → Bool
  | .fatalMandatoryParams | .fatalMissingKey | .fatalClientCreate
  | .fatalWrongAction | .fatalFileOpen | .fatalFileCreate
  | .fatalBucketNotExist | .fatalBucketFetch | .fatalObjectNotExist
  | .fatalObjectFetch | .fatalCopy | .fatalWriterClose
  | .fatalReaderNew | .fatalReaderClose => true
  | _ => false

/-- Event is the `cancel()` release of the session context. -/
def isCancel : Event → Bool
  | .cancelCall => true
  | _ => false

/-- Event is the `client.Close()` release of the storage client. -/
def isClientClose : Event → Bool
  | .clientClose => true
  | _ => false

/-- Event is the `Close()` release of the local file handle. -/
def isFileClose : Event → Bool
  | .fileClose => true
  | _ => false

/-- Event is a successful `io.Copy` reporting its byte count. -/
def isCopy : Event → Bool
  | .copy _ => true
  | _ => false

/- Evaluation lemmas for the event predicates on the events that appear in
the main-function prefix of a trace (before the transfer functions run). -/

@[simp] theorem isFatal_helloMsg : isFatal Event.helloMsg = false := rfl

@[simp] theorem isFatal_warnKeyDiscarded : isFatal Event.warnKeyDiscarded = false := rfl

@[simp] theorem isFatal_clientAnon : isFatal Event.clientAnon = false := rfl

@[simp] theorem isFatal_fatalClientCreate : isFatal Event.fatalClientCreate = true := rfl

@[simp] theorem isFatal_fatalWrongAction : isFatal Event.fatalWrongAction = true := rfl

@[simp] theorem isFatal_fatalMandatoryParams : isFatal Event.fatalMandatoryParams = true := rfl

@[simp] theorem isFatal_fatalMissingKey : isFatal Event.fatalMissingKey = true := rfl

@[simp] theorem isFatal_byeMsg : isFatal Event.byeMsg = false := rfl

@[simp] theorem isFatal_ctxCreate (s : Int) : isFatal (Event.ctxCreate s) = false := rfl

@[simp] theorem isFatal_clientAuth (k : String) : isFatal (Event.clientAuth k) = false := rfl

@[simp] theorem isFatal_clientHead (p : Bool) (k : String) :
    isFatal (if p = true then Event.clientAnon else Event.clientAuth k) = false := by
  cases p <;> rfl

@[simp] theorem isCancel_helloMsg : isCancel Event.helloMsg = false := rfl

@[simp] theorem isCancel_warnKeyDiscarded : isCancel Event.warnKeyDiscarded = false := rfl

@[simp] theorem isCancel_clientAnon : isCancel Event.clientAnon = false := rfl

@[simp] theorem isCancel_fatalClientCreate : isCancel Event.fatalClientCreate = false := rfl

@[simp] theorem isCancel_fatalWrongAction : isCancel Event.fatalWrongAction = false := rfl

@[simp] theorem isCancel_fatalMandatoryParams : isCancel Event.fatalMandatoryParams = false := rfl

@[simp] theorem isCancel_fatalMissingKey : isCancel Event.fatalMissingKey = false := rfl

@[simp] theorem isCancel_byeMsg : isCancel Event.byeMsg = false := rfl

@[simp] theorem isCancel_ctxCreate (s : Int) : isCancel (Event.ctxCreate s) = false := rfl

@[simp] theorem isCancel_clientAuth (k : String) : isCancel (Event.clientAuth k) = false := rfl

@[simp] theorem isCancel_clientHead (p : Bool) (k : String) :
    isCancel (if p = true then Event.clientAnon else Event.clientAuth k) = false := by
  cases p <;> rfl

@[simp] theorem isClientClose_helloMsg : isClientClose Event.helloMsg = false := rfl

@[simp] theorem isClientClose_warnKeyDiscarded : isClientClose Event.warnKeyDiscarded = false := rfl

@[simp] theorem isClientClose_clientAnon : isClientClose Event.clientAnon = false := rfl

@[simp] theorem isClientClose_fatalClientCreate : isClientClose Event.fatalClientCreate = false := rfl

@[simp] theorem isClientClose_fatalWrongAction : isClientClose Event.fatalWrongAction = false := rfl

@[simp] theorem isClientClose_fatalMandatoryParams : isClientClose Event.fatalMandatoryParams = false := rfl

@[simp] theorem isClientClose_fatalMissingKey : isClientClose Event.fatalMissingKey = false := rfl

@[simp] theorem isClientClose_byeMsg : isClientClose Event.byeMsg = false := rfl

@[simp] theorem isClientClose_ctxCreate (s : Int) : isClientClose (Event.ctxCreate s) = false := rfl

@[simp] theorem isClientClose_clientAuth (k : String) : isClientClose (Event.clientAuth k) = false := rfl

@[simp] theorem isClientClose_clientHead (p : Bool) (k : String) :
    isClientClose (if p = true then Event.clientAnon else Event.clientAuth k) = false := by
  cases p <;> rfl

@[simp] theorem isFileClose_helloMsg : isFileClose Event.helloMsg = false := rfl

@[simp] theorem isFileClose_warnKeyDiscarded : isFileClose Event.warnKeyDiscarded = false := rfl

@[simp] theorem isFileClose_clientAnon : isFileClose Event.clientAnon = false := rfl

@[simp] theorem isFileClose_fatalClientCreate : isFileClose Event.fatalClientCreate = false := rfl

@[simp] theorem isFileClose_fatalWrongAction : isFileClose Event.fatalWrongAction = false := rfl

@[simp] theorem isFileClose_fatalMandatoryParams : isFileClose Event.fatalMandatoryParams = false := rfl

@[simp] theorem isFileClose_fatalMissingKey : isFileClose Event.fatalMissingKey = false := rfl

@[simp] theorem isFileClose_byeMsg : isFileClose Event.byeMsg = false := rfl

@[simp] theorem isFileClose_ctxCreate (s : Int) : isFileClose (Event.ctxCreate s) = false := rfl

@[simp] theorem isFileClose_clientAuth (k : String) : isFileClose (Event.clientAuth k) = false := rfl

@[simp] theorem isFileClose_clientHead (p : Bool) (k : String) :
    isFileClose (if p = true then Event.clientAnon else Event.clientAuth k) = false := by
  cases p <;> rfl

/-- The prefix of a trace strictly before the first byte is written
(the first successful `io.Copy` event). -/
def beforeWrite (t : List Event) : List Event :=
  t.takeWhile (fun e => !isCopy e)

/-- Last event of a trace, if any. -/
def lastEvent : List Event → Option Event
  | [] => none
  | [e] => some e
  | _ :: rest => lastEvent rest

/-- Constant `Upload` from the source. -/
def Upload : String := "upload"

/-- Constant `Download` from the source. -/
def Download : String := "download"

/-- Character-wise ASCII lowercase fold of a string. -/
def foldLower (s : String) : List Char :=
  s.data.map Char.toLower

/-- Model of `strings.EqualFold` restricted to ASCII case folding.  Go
compares Unicode simple-fold orbits; for the two comparison targets used by
the program (`"upload"`, `"download"`) no letter has a fold partner outside
ASCII (no `s` or `k`), so on those comparisons Go agrees with the ASCII fold
for every input string. -/
def eqFold (s t : String) : Bool :=
  foldLower s == foldLower t

/-- Two's-complement wrap of an integer into the signed 64-bit range, i.e.
into `[-2 ^ 63, 2 ^ 63)`; the numerals are `2 ^ 63` and `2 ^ 64`.  Models
the overflow behaviour of Go `int64` arithmetic. -/
def wrap64 (n : Int) : Int :=
  (n + 9223372036854775808) % 18446744073709551616 - 9223372036854775808

/-- Go conversion `int(x)` applied to the parsed `uint` flag value: the
unsigned value is reinterpreted as a signed 64-bit integer, so values of
`2 ^ 63` and above become negative. -/
def intOfUint (n : Nat) : Int :=
  wrap64 (Int.ofNat n)

/-- Effective deadline duration, in nanoseconds, chosen by `createContext`:
a non-positive timeout defaults to 60 seconds; otherwise the duration is
`time.Second * time.Duration(timeoutValue)`, a product computed in wrapping
`int64` arithmetic as in Go — for `timeoutValue > 9223372036` the product
overflows and wraps.  The Go function returns `(ctx, cancel)`; the embedding
records the chosen duration, which is the only observable choice it makes. -/
def createContext (timeoutValue : Int) : Int :=
  if timeoutValue ≤ 0 then 60 * 1000000000
  else wrap64 (1000000000 * timeoutValue)

/-- Trace of `createClient`: with `PublicRequest` the client is built with
`option.WithoutAuthentication()`, otherwise with
`option.WithCredentialsFile(keyPath)`; a construction failure is fatal. -/
def createClient (clientOk : Bool) (publicRequest : Bool) (keyPath : String) :
    List Event :=
  (if publicRequest then Event.clientAnon else Event.clientAuth keyPath) ::
    (if clientOk then [] else [Event.fatalClientCreate])

/-- Extra-checks block of `uploadFile`: fetch bucket attributes (absence and
other errors both fatal), then object attributes (absence only warned —
the upload will create the object; other errors fatal; presence warned with
the metadata).  Returns the events and whether the block ended fatally. -/
def uploadChecks (w : World) : List Event × Bool :=
  match w.bucketAttrs with
  | .notExist => ([Event.bucketAttrsFetch, Event.fatalBucketNotExist], true)
  | .otherErr => ([Event.bucketAttrsFetch, Event.fatalBucketFetch], true)
  | .ok =>
    match w.objAttrsPre with
    | .notExist =>
        ([Event.bucketAttrsFetch, Event.objAttrsFetch,
          Event.warnObjectCreateNew], false)
    | .otherErr =>
        ([Event.bucketAttrsFetch, Event.objAttrsFetch,
          Event.fatalObjectFetch], true)
    | .ok a =>
        ([Event.bucketAttrsFetch, Event.objAttrsFetch,
          Event.warnObjectOverride a.size a.crc32c a.generation], false)

/-- Post-transfer verification of `uploadFile` under extra checks: re-fetch
the object attributes; any error (absence included — the code only tests
`err != nil` here) is fatal, success reports the new metadata. -/
def uploadPost (w : World) : List Event × Bool :=
  match w.objAttrsPost with
  | .ok a =>
      ([Event.objAttrsFetch,
        Event.successUploadExtra a.size a.crc32c a.generation], false)
  | .notExist => ([Event.objAttrsFetch, Event.fatalObjectFetch], true)
  | .otherErr => ([Event.objAttrsFetch, Event.fatalObjectFetch], true)

/-- Extra-checks block of `downloadFile`: as `uploadChecks`, except that an
absent object is fatal (the download source must exist) and a present object
is reported with a warning. -/
def downloadChecks (w : World) : List Event × Bool :=
  match w.bucketAttrs with
  | .notExist => ([Event.bucketAttrsFetch, Event.fatalBucketNotExist], true)
  | .otherErr => ([Event.bucketAttrsFetch, Event.fatalBucketFetch], true)
  | .ok =>
    match w.objAttrsPre with
    | .notExist =>
        ([Event.bucketAttrsFetch, Event.objAttrsFetch,
          Event.fatalObjectNotExist], true)
    | .otherErr =>
        ([Event.bucketAttrsFetch, Event.objAttrsFetch,
          Event.fatalObjectFetch], true)
    | .ok a =>
        ([Event.bucketAttrsFetch, Event.objAttrsFetch,
          Event.warnObjectExists a.size a.crc32c a.generation], false)

/-- Trace of `uploadFile` in the dual-direction variant.  The defers
registered on entry are `cancel`, `client.Close`, then `file.Close` after the
open and `writer.Close` after the writer is created; they run (LIFO) only on
the normal return at the end.  The content-type guard in the source reads the
global `appFlag.ContentType` while the assignment writes the `contentType`
parameter, so the embedding keeps both (`globalContentType` and
`contentType`); every call site passes the same string for the two. -/
def uploadFile (w : World) (extraChecks : Bool) (globalContentType : String)
    (filePath bucketName objectPath contentType : String) : List Event :=
  Event.fileOpen filePath ::
    if w.openOk then
      let chk := if extraChecks then uploadChecks w else ([], false)
      chk.1 ++
        if chk.2 then []
        else
          Event.writerNew ::
            (if globalContentType ≠ "" then [Event.setContentType contentType]
             else []) ++
              if w.copyOk then
                Event.copy w.localFileSize ::
                  Event.writerClose ::
                    if w.writerCloseOk then
                      let post :=
                        if extraChecks then uploadPost w
                        else ([Event.successUploadBytes w.localFileSize], false)
                      post.1 ++
                        if post.2 then []
                        else
                          [Event.writerClose, Event.fileClose,
                           Event.clientClose, Event.cancelCall]
                    else [Event.fatalWriterClose]
              else [Event.fatalCopy]
    else [Event.fatalFileOpen]

/-- Trace of `downloadFile` in the dual-direction variant.  The defers are
`cancel`, `client.Close`, `file.Close`, `reader.Close`; they run (LIFO) only
on the normal return at the end. -/
def downloadFile (w : World) (extraChecks : Bool)
    (filePath bucketName objectPath : String) : List Event :=
  Event.statFile filePath ::
    (if w.statExists then
       if w.statIsRegular then [Event.warnFileOverride w.existingFileSize]
       else [Event.warnPathNotRegular]
     else []) ++
      Event.fileCreate filePath ::
        if w.createOk then
          let chk := if extraChecks then downloadChecks w else ([], false)
          chk.1 ++
            if chk.2 then []
            else
              Event.readerNew ::
                if w.readerOk then
                  if w.dlCopyOk then
                    Event.copy w.remoteSize ::
                      Event.readerClose ::
                        if w.readerCloseOk then
                          [Event.successDownloadBytes w.remoteSize,
                           Event.readerClose, Event.fileClose,
                           Event.clientClose, Event.cancelCall]
                        else [Event.fatalReaderClose]
                  else [Event.fatalCopy]
                else [Event.fatalReaderNew]
        else [Event.fatalFileCreate]

/-- Trace of `main` in the dual-direction variant: hello banner, mandatory
parameter check, credential check, optional discarded-key warning, context
and client construction, then the action dispatch via `strings.EqualFold`
and — only on a normal return from the transfer — the bye banner. -/
def loaderMain (cfg : AppFlagStruct) (w : World) : List Event :=
  Event.helloMsg ::
    if cfg.actionType = "" ∨ cfg.filePath = "" ∨ cfg.bucketName = "" ∨
        cfg.objectPath = "" then
      [Event.fatalMandatoryParams]
    else if ¬cfg.publicRequest ∧ cfg.keyPath = "" then
      [Event.fatalMissingKey]
    else
      (if cfg.publicRequest ∧ cfg.keyPath ≠ "" then [Event.warnKeyDiscarded]
       else []) ++
        Event.ctxCreate (createContext (intOfUint cfg.timeoutValue)) ::
          createClient w.clientOk cfg.publicRequest cfg.keyPath ++
            if w.clientOk then
              if eqFold cfg.actionType Upload then
                let t := uploadFile w cfg.extraChecks cfg.contentType
                  cfg.filePath cfg.bucketName cfg.objectPath cfg.contentType
                t ++ if t.any isFatal then [] else [Event.byeMsg]
              else if eqFold cfg.actionType Download then
                let t := downloadFile w cfg.extraChecks cfg.filePath
                  cfg.bucketName cfg.objectPath
                t ++ if t.any isFatal then [] else [Event.byeMsg]
              else [Event.fatalWrongAction]
            else []

/-- Trace of `uploadFile` in the upload-only variant (`main.go`): the
context (fixed 60-second deadline) and the client (always authenticated with
the key file) are created inside the function; the rest is as in the
dual-direction `uploadFile`; the 60-second deadline is recorded in
nanoseconds. -/
def uploaderUploadFile (w : World) (extraChecks : Bool)
    (globalContentType : String)
    (filePath contentType bucketName objectPath keyPath : String) :
    List Event :=
  Event.ctxCreate 60000000000 ::
    Event.clientAuth keyPath ::
      if w.clientOk then
        Event.fileOpen filePath ::
          if w.openOk then
            let chk := if extraChecks then uploadChecks w else ([], false)
            chk.1 ++
              if chk.2 then []
              else
                Event.writerNew ::
                  (if globalContentType ≠ "" then
                     [Event.setContentType contentType]
                   else []) ++
                    if w.copyOk then
                      Event.copy w.localFileSize ::
                        Event.writerClose ::
                          if w.writerCloseOk then
                            let post :=
                              if extraChecks then uploadPost w
                              else ([Event.successUploadBytes w.localFileSize],
                                    false)
                            post.1 ++
                              if post.2 then []
                              else
                                [Event.writerClose, Event.fileClose,
                                 Event.clientClose, Event.cancelCall]
                          else [Event.fatalWriterClose]
                    else [Event.fatalCopy]
          else [Event.fatalFileOpen]
      else [Event.fatalClientCreate]

/-- Trace of `main` in the upload-only variant (`main.go`): hello banner,
mandatory parameter check (the key is unconditionally mandatory here), the
upload, and — only on a normal return — the bye banner. -/
def uploaderMain (cfg : UploaderFlagStruct) (w : World) : List Event :=
  Event.helloMsg ::
    if cfg.filePath = "" ∨ cfg.bucketName = "" ∨ cfg.objectPath = "" ∨
        cfg.keyPath = "" then
      [Event.fatalMandatoryParams]
    else
      let t := uploaderUploadFile w cfg.extraChecks cfg.contentType
        cfg.filePath cfg.contentType cfg.bucketName cfg.objectPath cfg.keyPath
      t ++ if t.any isFatal then [] else [Event.byeMsg]

/-- Replace the key path of a configuration. -/
def setKey (cfg : AppFlagStruct) (k : String) : AppFlagStruct :=
  ⟨cfg.actionType, cfg.filePath, cfg.bucketName, cfg.objectPath, k,
   cfg.contentType, cfg.extraChecks, cfg.publicRequest, cfg.timeoutValue⟩

/-- Replace the timeout of a configuration. -/
def setTimeout (cfg : AppFlagStruct) (t : Nat) : AppFlagStruct :=
  ⟨cfg.actionType, cfg.filePath, cfg.bucketName, cfg.objectPath, cfg.keyPath,
   cfg.contentType, cfg.extraChecks, cfg.publicRequest, t⟩

/-- Oracle in which every external operation succeeds; the pre-transfer
object fetch reports an absent object and the local source file has 2 bytes. -/
def wOk : World :=
  ⟨true, true, false, false, 0, true, BucketFetch.ok, ObjFetch.notExist,
   true, 2, true, ObjFetch.ok ⟨2, 7, 1⟩, true, 5, true, true⟩

/-- Valid upload configuration (authenticated, no extra checks). -/
def cfgUp : AppFlagStruct :=
  ⟨"upload", "a.txt", "b", "o", "k.json", "", false, false, 0⟩

/-- Valid download configuration (authenticated, no extra checks). -/
def cfgDown : AppFlagStruct :=
  ⟨"download", "out.txt", "b", "missing", "k.json", "", false, false, 0⟩

/-- Configuration whose action matches neither keyword. -/
def cfgWrong : AppFlagStruct :=
  ⟨"copy", "a.txt", "b", "o", "k.json", "", false, false, 0⟩

/-- Anonymous configuration with a non-empty key but an empty (mandatory)
action field. -/
def cfgNoAct : AppFlagStruct :=
  ⟨"", "a.txt", "b", "o", "k.json", "", false, true, 0⟩

/-- Anonymous upload configuration with a non-empty key. -/
def cfgPub : AppFlagStruct :=
  ⟨"upload", "a.txt", "b", "o", "k.json", "", false, true, 0⟩

/-- Upload-only variant configuration with an empty (mandatory) key. -/
def ucfgNoKey : UploaderFlagStruct :=
  ⟨"a.txt", "", "b", "o", "", false⟩

/-- Valid upload-only variant configuration. -/
def ucfgOk : UploaderFlagStruct :=
  ⟨"a.txt", "", "b", "o", "k.json", false⟩

/-- C3: with any unconditionally-mandatory field empty (action, file, bucket,
object in the dual variant; file, bucket, object, key in the upload-only
variant), the run is exactly the hello banner followed by the fatal
missing-mandatory-parameter termination, so no session context and no storage
client is ever created. -/
theorem mandatory_check_precedes_session :
    (∀ (cfg : AppFlagStruct) (w : World),
       cfg.actionType = "" ∨ cfg.filePath = "" ∨ cfg.bucketName = "" ∨
         cfg.objectPath = "" →
       loaderMain cfg w = [Event.helloMsg, Event.fatalMandatoryParams] ∧
       (∀ s, Event.ctxCreate s ∉ loaderMain cfg w) ∧
       Event.clientAnon ∉ loaderMain cfg w ∧
       (∀ k, Event.clientAuth k ∉ loaderMain cfg w)) ∧
    (∀ (cfg : UploaderFlagStruct) (w : World),
       cfg.filePath = "" ∨ cfg.bucketName = "" ∨ cfg.objectPath = "" ∨
         cfg.keyPath = "" →
       uploaderMain cfg w = [Event.helloMsg, Event.fatalMandatoryParams] ∧
       (∀ s, Event.ctxCreate s ∉ uploaderMain cfg w) ∧
       (∀ k, Event.clientAuth k ∉ uploaderMain cfg w)) := by
  constructor
  · intro cfg w h
    have heq : loaderMain cfg w = [Event.helloMsg, Event.fatalMandatoryParams] := by
      simp only [loaderMain]
      rw [if_pos h]
    refine ⟨heq, ?_, ?_, ?_⟩ <;> simp [heq]
  · intro cfg w h
    have heq : uploaderMain cfg w = [Event.helloMsg, Event.fatalMandatoryParams] := by
      simp only [uploaderMain]
      rw [if_pos h]
    refine ⟨heq, ?_, ?_⟩ <;> simp [heq]

/-- Witness for C3: a dual-variant run with an empty action and an
upload-only run with an empty key both stop at the mandatory check. -/
theorem mandatory_check_precedes_session_witness :
    loaderMain cfgNoAct wOk = [Event.helloMsg, Event.fatalMandatoryParams] ∧
    uploaderMain ucfgNoKey wOk = [Event.helloMsg, Event.fatalMandatoryParams] :=
  ⟨(mandatory_check_precedes_session.1 cfgNoAct wOk (Or.inl rfl)).1,
   (mandatory_check_precedes_session.2 ucfgNoKey wOk
      (Or.inr (Or.inr (Or.inr rfl)))).1⟩

/-- Counterexample to C4: at timeout 9223372037 seconds (positive, so the
claim promises a deadline of exactly that many seconds) the nanosecond
duration `time.Second * time.Duration(t)` overflows `int64` and wraps to a
negative, already-expired deadline, so the effective deadline is not `t`
seconds. -/
theorem timeout_wraps_counterexample :
    (0 : Int) < 9223372037 ∧
    createContext 9223372037 ≠ 9223372037 * 1000000000 ∧
    createContext 9223372037 < 0 := by decide

/-- C4 (amended): `createContext` uses a deadline of 60 seconds for every
non-positive timeout, and of `t` seconds for a positive timeout
`t ≤ 9223372036` (the largest value whose nanosecond duration fits in
`int64`); beyond that the duration product wraps.  A flag value of `2 ^ 63`
or above wraps negative in the `uint` to `int` conversion and therefore
defaults to 60 seconds.  Timeout 0 and timeout 60 still yield identical
effective deadlines: the two dual-variant runs produce identical traces. -/
theorem timeout_default_60 :
    (∀ t : Int, t ≤ 0 → createContext t = 60 * 1000000000) ∧
    (∀ t : Int, 0 < t → t ≤ 9223372036 → createContext t = t * 1000000000) ∧
    (∀ n : Nat, 9223372036854775808 ≤ n → n < 18446744073709551616 →
       intOfUint n < 0 ∧ createContext (intOfUint n) = 60 * 1000000000) ∧
    (∀ (cfg : AppFlagStruct) (w : World),
       loaderMain (setTimeout cfg 0) w = loaderMain (setTimeout cfg 60) w) := by
  refine ⟨fun t ht => by simp [createContext, ht], fun t ht1 ht2 => ?_,
    fun n hn1 hn2 => ?_, fun cfg w => ?_⟩
  · rw [createContext, if_neg (by omega), wrap64]
    omega
  · have hneg : intOfUint n < 0 := by
      have hcast : Int.ofNat n = (n : Int) := rfl
      rw [intOfUint, wrap64, hcast]
      omega
    exact ⟨hneg, by rw [createContext, if_pos (le_of_lt hneg)]⟩
  · have h0 : createContext (intOfUint 0) = 60 * 1000000000 := by decide
    have h60 : createContext (intOfUint 60) = 60 * 1000000000 := by decide
    obtain ⟨a, f, b, o, k, c, e, p, t⟩ := cfg
    simp [setTimeout, loaderMain, h0, h60]

/-- Witness for C4 (amended): timeout -5 defaults to 60 seconds, timeout 7
is kept, the flag value `2 ^ 63` wraps negative and defaults to 60 seconds,
and the concrete upload run behaves identically under timeout 0 and
timeout 60. -/
theorem timeout_default_60_witness :
    createContext (-5) = 60 * 1000000000 ∧
    createContext 7 = 7 * 1000000000 ∧
    intOfUint 9223372036854775808 < 0 ∧
    createContext (intOfUint 9223372036854775808) = 60 * 1000000000 ∧
    loaderMain (setTimeout cfgUp 0) wOk = loaderMain (setTimeout cfgUp 60) wOk :=
  ⟨timeout_default_60.1 (-5) (by decide),
   timeout_default_60.2.1 7 (by decide) (by decide),
   (timeout_default_60.2.2.1 9223372036854775808 (by decide) (by decide)).1,
   (timeout_default_60.2.2.1 9223372036854775808 (by decide) (by decide)).2,
   timeout_default_60.2.2.2 cfgUp wOk⟩

/-- Counterexample to C1: on the wrong-action exit path the storage client is
constructed (the authenticated client event is in the trace) and the process
then terminates fatally, but neither the context cancel nor the client close
nor a file-handle close is ever invoked — `log.Fatalln` exits the process
without running the deferred releases. -/
theorem release_skipped_on_wrong_action :
    Event.clientAuth "k.json" ∈ loaderMain cfgWrong wOk ∧
    lastEvent (loaderMain cfgWrong wOk) = some Event.fatalWrongAction ∧
    ¬((loaderMain cfgWrong wOk).countP isCancel = 1 ∧
      (loaderMain cfgWrong wOk).countP isClientClose = 1 ∧
      (loaderMain cfgWrong wOk).countP isFileClose = 1) := by decide

/-- Counterexample to C2: a configuration with anonymous mode set and a
non-empty credential key path but an empty action field terminates at the
mandatory-parameter check, so the discarded-key warning is never emitted. -/
theorem anonymous_warning_skipped_counterexample :
    cfgNoAct.publicRequest = true ∧ cfgNoAct.keyPath ≠ "" ∧
    Event.warnKeyDiscarded ∉ loaderMain cfgNoAct wOk := by decide

/-- On a non-fatal run of the dual-variant `uploadFile`, the deferred
releases run exactly once each: one `cancel()`, one `client.Close()`, one
local-file close. -/
theorem uploadFile_releases (w : World) (ec : Bool) (gct fp bn op ct : String)
    (h : (uploadFile w ec gct fp bn op ct).any isFatal = false) :
    (uploadFile w ec gct fp bn op ct).countP isCancel = 1 ∧
    (uploadFile w ec gct fp bn op ct).countP isClientClose = 1 ∧
    (uploadFile w ec gct fp bn op ct).countP isFileClose = 1 := by
  obtain ⟨cOk, oOk, sE, sR, eS, crOk, bkA, objPre, cpOk, sz, wcOk, objPost, rdOk, rs, dcOk, rcOk⟩ := w
  cases oOk <;> cases ec <;> cases cpOk <;> cases wcOk <;>
    cases bkA <;> rcases objPre with ⟨a⟩ | _ | _ <;> rcases objPost with ⟨b⟩ | _ | _ <;>
    by_cases hg : gct = "" <;>
    simp_all [uploadFile, uploadChecks, uploadPost, isFatal, isCancel,
      isClientClose, isFileClose]

/-- On a non-fatal run of `downloadFile`, the deferred releases run exactly
once each. -/
theorem downloadFile_releases (w : World) (ec : Bool) (fp bn op : String)
    (h : (downloadFile w ec fp bn op).any isFatal = false) :
    (downloadFile w ec fp bn op).countP isCancel = 1 ∧
    (downloadFile w ec fp bn op).countP isClientClose = 1 ∧
    (downloadFile w ec fp bn op).countP isFileClose = 1 := by
  obtain ⟨cOk, oOk, sE, sR, eS, crOk, bkA, objPre, cpOk, sz, wcOk, objPost, rdOk, rs, dcOk, rcOk⟩ := w
  cases crOk <;> cases ec <;> cases sE <;> cases sR <;> cases rdOk <;> cases dcOk <;>
    cases rcOk <;> cases bkA <;> rcases objPre with ⟨a⟩ | _ | _ <;>
    simp_all [downloadFile, downloadChecks, isFatal, isCancel,
      isClientClose, isFileClose]

/-- On a non-fatal run of the upload-only `uploadFile`, the deferred
releases run exactly once each. -/
theorem uploaderUploadFile_releases (w : World) (ec : Bool) (gct fp ct bn op kp : String)
    (h : (uploaderUploadFile w ec gct fp ct bn op kp).any isFatal = false) :
    (uploaderUploadFile w ec gct fp ct bn op kp).countP isCancel = 1 ∧
    (uploaderUploadFile w ec gct fp ct bn op kp).countP isClientClose = 1 ∧
    (uploaderUploadFile w ec gct fp ct bn op kp).countP isFileClose = 1 := by
  obtain ⟨cOk, oOk, sE, sR, eS, crOk, bkA, objPre, cpOk, sz, wcOk, objPost, rdOk, rs, dcOk, rcOk⟩ := w
  cases cOk <;> cases oOk <;> cases ec <;> cases cpOk <;> cases wcOk <;>
    cases bkA <;> rcases objPre with ⟨a⟩ | _ | _ <;> rcases objPost with ⟨b⟩ | _ | _ <;>
    by_cases hg : gct = "" <;>
    simp_all [uploaderUploadFile, uploadChecks, uploadPost, isFatal, isCancel,
      isClientClose, isFileClose]

/-- C1 (amended): on every run that terminates normally (no fatal event),
the session release actions (context cancel, client close) and the local
file handle release each occur exactly once, in both variants.  On fatal
termination the process exits without running the deferred releases, so the
claim as stated fails there (see the counterexample). -/
theorem releases_on_normal_exit (cfg : AppFlagStruct) (ucfg : UploaderFlagStruct)
    (w : World) :
    ((loaderMain cfg w).any isFatal = false →
       (loaderMain cfg w).countP isCancel = 1 ∧
       (loaderMain cfg w).countP isClientClose = 1 ∧
       (loaderMain cfg w).countP isFileClose = 1) ∧
    ((uploaderMain ucfg w).any isFatal = false →
       (uploaderMain ucfg w).countP isCancel = 1 ∧
       (uploaderMain ucfg w).countP isClientClose = 1 ∧
       (uploaderMain ucfg w).countP isFileClose = 1) := by
  constructor
  · intro h
    simp only [loaderMain] at h ⊢
    by_cases h1 : cfg.actionType = "" ∨ cfg.filePath = "" ∨ cfg.bucketName = "" ∨
        cfg.objectPath = ""
    · rw [if_pos h1] at h
      simp at h
    rw [if_neg h1] at h ⊢
    by_cases h2 : ¬cfg.publicRequest ∧ cfg.keyPath = ""
    · rw [if_pos h2] at h
      simp at h
    rw [if_neg h2] at h ⊢
    cases hc : w.clientOk with
    | false =>
      simp [hc, createClient, List.any_append, List.any_cons,
        apply_ite (fun l => List.any l isFatal)] at h
    | true =>
      by_cases hu : eqFold cfg.actionType Upload = true
      · rw [if_pos hu] at h ⊢
        have ht : (uploadFile w cfg.extraChecks cfg.contentType cfg.filePath
            cfg.bucketName cfg.objectPath cfg.contentType).any isFatal = false := by
          by_contra hcon
          rw [Bool.not_eq_false] at hcon
          simp [createClient, List.any_append, List.any_cons, hcon,
            apply_ite (fun l => List.any l isFatal)] at h
        obtain ⟨r1, r2, r3⟩ := uploadFile_releases w cfg.extraChecks cfg.contentType
          cfg.filePath cfg.bucketName cfg.objectPath cfg.contentType ht
        refine ⟨?_, ?_, ?_⟩ <;>
          simp [List.countP_append, List.countP_cons, createClient, ht, r1, r2, r3,
            apply_ite (List.countP isCancel), apply_ite (List.countP isClientClose),
            apply_ite (List.countP isFileClose)]
      · rw [if_neg hu] at h ⊢
        by_cases hd : eqFold cfg.actionType Download = true
        · rw [if_pos hd] at h ⊢
          have ht : (downloadFile w cfg.extraChecks cfg.filePath
              cfg.bucketName cfg.objectPath).any isFatal = false := by
            by_contra hcon
            rw [Bool.not_eq_false] at hcon
            simp [createClient, List.any_append, List.any_cons, hcon,
              apply_ite (fun l => List.any l isFatal)] at h
          obtain ⟨r1, r2, r3⟩ := downloadFile_releases w cfg.extraChecks
            cfg.filePath cfg.bucketName cfg.objectPath ht
          refine ⟨?_, ?_, ?_⟩ <;>
            simp [List.countP_append, List.countP_cons, createClient, ht, r1, r2, r3,
              apply_ite (List.countP isCancel), apply_ite (List.countP isClientClose),
              apply_ite (List.countP isFileClose)]
        · rw [if_neg hd] at h
          simp [createClient, List.any_append, List.any_cons,
            apply_ite (fun l => List.any l isFatal)] at h
  · intro h
    simp only [uploaderMain] at h ⊢
    by_cases h1 : ucfg.filePath = "" ∨ ucfg.bucketName = "" ∨ ucfg.objectPath = "" ∨
        ucfg.keyPath = ""
    · rw [if_pos h1] at h
      simp at h
    rw [if_neg h1] at h ⊢
    have ht : (uploaderUploadFile w ucfg.extraChecks ucfg.contentType ucfg.filePath
        ucfg.contentType ucfg.bucketName ucfg.objectPath ucfg.keyPath).any isFatal
        = false := by
      by_contra hcon
      rw [Bool.not_eq_false] at hcon
      simp [List.any_append, hcon] at h
    obtain ⟨r1, r2, r3⟩ := uploaderUploadFile_releases w ucfg.extraChecks
      ucfg.contentType ucfg.filePath ucfg.contentType ucfg.bucketName
      ucfg.objectPath ucfg.keyPath ht
    refine ⟨?_, ?_, ?_⟩ <;>
      simp [List.countP_append, List.countP_cons, ht, r1, r2, r3]

/-- Witness for C1 (amended): the concrete successful upload runs of both
variants release each resource exactly once. -/
theorem releases_on_normal_exit_witness :
    (loaderMain cfgUp wOk).any isFatal = false ∧
    (loaderMain cfgUp wOk).countP isCancel = 1 ∧
    (loaderMain cfgUp wOk).countP isClientClose = 1 ∧
    (loaderMain cfgUp wOk).countP isFileClose = 1 ∧
    (uploaderMain ucfgOk wOk).any isFatal = false ∧
    (uploaderMain ucfgOk wOk).countP isCancel = 1 :=
  ⟨by decide,
   ((releases_on_normal_exit cfgUp ucfgOk wOk).1 (by decide)).1,
   ((releases_on_normal_exit cfgUp ucfgOk wOk).1 (by decide)).2.1,
   ((releases_on_normal_exit cfgUp ucfgOk wOk).1 (by decide)).2.2,
   by decide,
   ((releases_on_normal_exit cfgUp ucfgOk wOk).2 (by decide)).1⟩

/-- The transfer function `uploadFile` of the dual variant never constructs
an authenticated client (client construction happens in `main` only). -/
theorem clientAuth_not_mem_uploadFile (w : World) (ec : Bool)
    (gct fp bn op ct k : String) :
    Event.clientAuth k ∉ uploadFile w ec gct fp bn op ct := by
  obtain ⟨cOk, oOk, sE, sR, eS, crOk, bkA, objPre, cpOk, sz, wcOk, objPost, rdOk, rs, dcOk, rcOk⟩ := w
  cases oOk <;> cases ec <;> cases cpOk <;> cases wcOk <;>
    cases bkA <;> rcases objPre with ⟨a⟩ | _ | _ <;> rcases objPost with ⟨b⟩ | _ | _ <;>
    by_cases hg : gct = "" <;>
    simp_all [uploadFile, uploadChecks, uploadPost]

/-- The transfer function `downloadFile` never constructs an authenticated
client. -/
theorem clientAuth_not_mem_downloadFile (w : World) (ec : Bool)
    (fp bn op k : String) :
    Event.clientAuth k ∉ downloadFile w ec fp bn op := by
  obtain ⟨cOk, oOk, sE, sR, eS, crOk, bkA, objPre, cpOk, sz, wcOk, objPost, rdOk, rs, dcOk, rcOk⟩ := w
  cases crOk <;> cases ec <;> cases sE <;> cases sR <;> cases rdOk <;> cases dcOk <;>
    cases rcOk <;> cases bkA <;> rcases objPre with ⟨a⟩ | _ | _ <;>
    simp_all [downloadFile, downloadChecks]

/-- Membership in an if-then-else of lists, pushed inside the branches. -/
theorem mem_ite_list (c : Prop) [Decidable c] (x : Event) (l1 l2 : List Event) :
    (x ∈ if c then l1 else l2) ↔ (if c then x ∈ l1 else x ∈ l2) := by
  split <;> rfl

/-- C2 (amended): for every configuration that passes the mandatory-field
check, with anonymous (public) mode set and a non-empty credential key path,
the discarded-key warning is emitted, the client is built without
authentication (an authenticated-client event never occurs anywhere in the
trace), and two runs differing only in the (non-empty) key path produce
identical traces.  With a mandatory field empty the run stops before the
warning, so the claim needs the mandatory-field proviso (see the
counterexample). -/
theorem anonymous_ignores_key (cfg : AppFlagStruct) (w : World) (k1 k2 : String)
    (hm : ¬(cfg.actionType = "" ∨ cfg.filePath = "" ∨ cfg.bucketName = "" ∨
            cfg.objectPath = ""))
    (hp : cfg.publicRequest = true) (h1 : k1 ≠ "") (h2 : k2 ≠ "") :
    Event.warnKeyDiscarded ∈ loaderMain (setKey cfg k1) w ∧
    Event.clientAnon ∈ loaderMain (setKey cfg k1) w ∧
    (∀ k, Event.clientAuth k ∉ loaderMain (setKey cfg k1) w) ∧
    loaderMain (setKey cfg k1) w = loaderMain (setKey cfg k2) w := by
  refine ⟨?_, ?_, ?_, ?_⟩
  · simp [loaderMain, setKey, hm, hp, h1]
  · simp [loaderMain, setKey, createClient, hm, hp, h1]
  · intro k
    cases hc : w.clientOk <;>
      by_cases hu : eqFold cfg.actionType Upload = true <;>
      by_cases hd : eqFold cfg.actionType Download = true <;>
      simp [loaderMain, setKey, createClient, hm, hp, h1, hc, hu, hd, mem_ite_list,
        clientAuth_not_mem_uploadFile, clientAuth_not_mem_downloadFile]
  · simp [loaderMain, setKey, createClient, hm, hp, h1, h2]

/-- Witness for C2 (amended): a concrete valid anonymous upload emits the
warning and is unaffected by swapping the non-empty key path. -/
theorem anonymous_ignores_key_witness :
    Event.warnKeyDiscarded ∈ loaderMain (setKey cfgPub "k1.json") wOk ∧
    loaderMain (setKey cfgPub "k1.json") wOk = loaderMain (setKey cfgPub "k2.json") wOk :=
  ⟨(anonymous_ignores_key cfgPub wOk "k1.json" "k2.json" (by decide) rfl
      (by decide) (by decide)).1,
   (anonymous_ignores_key cfgPub wOk "k1.json" "k2.json" (by decide) rfl
      (by decide) (by decide)).2.2.2⟩

/-- Oracle like `wOk` but whose pre-transfer object fetch fails with an
error other than absence. -/
def wErr : World :=
  ⟨true, true, false, false, 0, true, BucketFetch.ok, ObjFetch.otherErr,
   true, 2, true, ObjFetch.ok ⟨2, 7, 1⟩, true, 5, true, true⟩

/-- Oracle like `wOk` but in which opening the remote read stream fails
(the remote object is absent). -/
def wNoObj : World :=
  ⟨true, true, false, false, 0, true, BucketFetch.ok, ObjFetch.notExist,
   true, 2, true, ObjFetch.ok ⟨2, 7, 1⟩, false, 5, true, true⟩

/-- C5: with extra checks enabled and a fetchable bucket, the two transfer
operations treat a missing remote object asymmetrically: `uploadFile` emits
the non-fatal will-create-new-object warning and continues to open the write
stream, while `downloadFile` terminates fatally with the
object-does-not-exist error and never opens a read stream; any other
metadata-fetch error is fatal in both operations. -/
theorem extra_checks_missing_object_asymmetry (w : World) (gct fp bn op ct : String)
    (ho : w.openOk = true) (hcr : w.createOk = true)
    (hb : w.bucketAttrs = BucketFetch.ok) :
    (w.objAttrsPre = ObjFetch.notExist →
       Event.warnObjectCreateNew ∈ uploadFile w true gct fp bn op ct ∧
       Event.writerNew ∈ uploadFile w true gct fp bn op ct ∧
       Event.fatalObjectNotExist ∉ uploadFile w true gct fp bn op ct ∧
       lastEvent (downloadFile w true fp bn op) = some Event.fatalObjectNotExist ∧
       Event.readerNew ∉ downloadFile w true fp bn op) ∧
    (w.objAttrsPre = ObjFetch.otherErr →
       lastEvent (uploadFile w true gct fp bn op ct) = some Event.fatalObjectFetch ∧
       Event.writerNew ∉ uploadFile w true gct fp bn op ct ∧
       lastEvent (downloadFile w true fp bn op) = some Event.fatalObjectFetch ∧
       Event.readerNew ∉ downloadFile w true fp bn op) := by
  obtain ⟨cOk, oOk, sE, sR, eS, crOk, bkA, objPre, cpOk, sz, wcOk, objPost, rdOk, rs, dcOk, rcOk⟩ := w
  constructor <;> intro hpre <;>
    cases cpOk <;> cases wcOk <;> rcases objPost with ⟨b⟩ | _ | _ <;>
    cases sE <;> cases sR <;> by_cases hg : gct = "" <;>
    simp_all [uploadFile, uploadChecks, uploadPost, downloadFile, downloadChecks,
      lastEvent]

/-- Witness for C5: concrete runs with an absent object (upload warns and
continues, download dies with the object-not-exist error) and with a failed
object fetch (upload dies with the fetch error). -/
theorem extra_checks_missing_object_asymmetry_witness :
    Event.warnObjectCreateNew ∈ uploadFile wOk true "" "a.txt" "b" "o" "" ∧
    lastEvent (downloadFile wOk true "out.txt" "b" "o") =
      some Event.fatalObjectNotExist ∧
    lastEvent (uploadFile wErr true "" "a.txt" "b" "o" "") =
      some Event.fatalObjectFetch :=
  ⟨((extra_checks_missing_object_asymmetry wOk "" "a.txt" "b" "o" "" rfl rfl rfl).1
      rfl).1,
   ((extra_checks_missing_object_asymmetry wOk "" "out.txt" "b" "o" "" rfl rfl
      rfl).1 rfl).2.2.2.1,
   ((extra_checks_missing_object_asymmetry wErr "" "a.txt" "b" "o" "" rfl rfl
      rfl).2 rfl).1⟩

/-- A string that case-folds to `"download"` does not case-fold to
`"upload"`, so the download dispatch branch excludes the upload branch. -/
theorem eqFold_download_not_upload (s : String) (h : eqFold s Download = true) :
    eqFold s Upload = false := by
  have hf : foldLower s = foldLower Download := by rwa [eqFold, beq_iff_eq] at h
  rw [eqFold, hf]
  decide

/-- C6: a download run without extra checks whose remote read stream cannot
be opened (absent object) creates the local file first, then terminates
fatally at the reader-creation error; no byte-copy event and no success
report ever occurs, so the local file is left existing but empty. -/
theorem download_no_extra_missing_object (cfg : AppFlagStruct) (w : World)
    (hm : ¬(cfg.actionType = "" ∨ cfg.filePath = "" ∨ cfg.bucketName = "" ∨
            cfg.objectPath = ""))
    (hk : ¬(¬cfg.publicRequest ∧ cfg.keyPath = ""))
    (hd : eqFold cfg.actionType Download = true)
    (he : cfg.extraChecks = false)
    (hc : w.clientOk = true) (hcr : w.createOk = true) (hr : w.readerOk = false) :
    Event.fileCreate cfg.filePath ∈ loaderMain cfg w ∧
    lastEvent (loaderMain cfg w) = some Event.fatalReaderNew ∧
    (∀ n, Event.copy n ∉ loaderMain cfg w) ∧
    (∀ n, Event.successDownloadBytes n ∉ loaderMain cfg w) := by
  have hu : eqFold cfg.actionType Upload = false := eqFold_download_not_upload _ hd
  cases hs : w.statExists <;> cases hsr : w.statIsRegular <;>
    by_cases hp : cfg.publicRequest = true <;> by_cases hkk : cfg.keyPath = "" <;>
    simp_all [loaderMain, downloadFile, createClient, lastEvent, isFatal]

/-- Witness for C6: the concrete download of a missing object creates the
local file and dies at the reader-creation error. -/
theorem download_no_extra_missing_object_witness :
    Event.fileCreate "out.txt" ∈ loaderMain cfgDown wNoObj ∧
    lastEvent (loaderMain cfgDown wNoObj) = some Event.fatalReaderNew :=
  ⟨(download_no_extra_missing_object cfgDown wNoObj (by decide) (by decide)
      (by decide) rfl rfl rfl rfl).1,
   (download_no_extra_missing_object cfgDown wNoObj (by decide) (by decide)
      (by decide) rfl rfl rfl rfl).2.1⟩

/-- Mixed-case upload configuration. -/
def cfgUpMixed : AppFlagStruct :=
  ⟨"UpLoAd", "a.txt", "b", "o", "k.json", "", false, false, 0⟩

/-- Mixed-case download configuration. -/
def cfgDownMixed : AppFlagStruct :=
  ⟨"DOWNLOAD", "out.txt", "b", "o", "k.json", "", false, false, 0⟩

/-- C7: in both variants, a non-empty content-type argument (equal to the
global flag value, as at every call site) is applied to the remote write
stream strictly before any byte is written, and an empty one is never
applied to the stream. -/
theorem content_type_applied_before_write (w : World) (ec : Bool)
    (fp bn op ct kp : String) :
    (ct ≠ "" → (∃ n, Event.copy n ∈ uploadFile w ec ct fp bn op ct) →
       Event.setContentType ct ∈ beforeWrite (uploadFile w ec ct fp bn op ct)) ∧
    (ct = "" → ∀ c, Event.setContentType c ∉ uploadFile w ec ct fp bn op ct) ∧
    (ct ≠ "" → (∃ n, Event.copy n ∈ uploaderUploadFile w ec ct fp ct bn op kp) →
       Event.setContentType ct ∈
         beforeWrite (uploaderUploadFile w ec ct fp ct bn op kp)) ∧
    (ct = "" →
       ∀ c, Event.setContentType c ∉ uploaderUploadFile w ec ct fp ct bn op kp) := by
  obtain ⟨cOk, oOk, sE, sR, eS, crOk, bkA, objPre, cpOk, sz, wcOk, objPost, rdOk, rs, dcOk, rcOk⟩ := w
  refine ⟨fun hne hcopy => ?_, fun hemp c => ?_, fun hne hcopy => ?_,
    fun hemp c => ?_⟩
  · cases oOk <;> cases ec <;> cases cpOk <;> cases bkA <;>
      rcases objPre with ⟨a⟩ | _ | _ <;>
      simp_all [uploadFile, uploadChecks, beforeWrite, isCopy, List.takeWhile]
  · cases oOk <;> cases ec <;> cases cpOk <;> cases wcOk <;> cases bkA <;>
      rcases objPre with ⟨a⟩ | _ | _ <;> rcases objPost with ⟨b⟩ | _ | _ <;>
      simp_all [uploadFile, uploadChecks, uploadPost]
  · cases cOk <;> cases oOk <;> cases ec <;> cases cpOk <;> cases bkA <;>
      rcases objPre with ⟨a⟩ | _ | _ <;>
      simp_all [uploaderUploadFile, uploadChecks, beforeWrite, isCopy,
        List.takeWhile]
  · cases cOk <;> cases oOk <;> cases ec <;> cases cpOk <;> cases wcOk <;>
      cases bkA <;> rcases objPre with ⟨a⟩ | _ | _ <;>
      rcases objPost with ⟨b⟩ | _ | _ <;>
      simp_all [uploaderUploadFile, uploadChecks, uploadPost]

/-- Witness for C7: in the concrete upload the content type is applied
before the copy when non-empty, and never applied when empty. -/
theorem content_type_applied_before_write_witness :
    Event.setContentType "text/plain" ∈
      beforeWrite (uploadFile wOk false "text/plain" "a.txt" "b" "o" "text/plain") ∧
    Event.setContentType "text/plain" ∉ uploadFile wOk false "" "a.txt" "b" "o" "" :=
  ⟨(content_type_applied_before_write wOk false "a.txt" "b" "o" "text/plain" "k").1
      (by decide) ⟨2, by decide⟩,
   (content_type_applied_before_write wOk false "a.txt" "b" "o" "" "k").2.1 rfl
      "text/plain"⟩

/-- C9: a successful upload with extra checks disabled streams exactly the
local file size in bytes and reports exactly that byte count, in both
variants; every copy event and every success report carries that size. -/
theorem upload_reports_exact_size (w : World) (gct fp bn op ct kp : String)
    (ho : w.openOk = true) (hcp : w.copyOk = true) (hwc : w.writerCloseOk = true)
    (hcl : w.clientOk = true) :
    Event.copy w.localFileSize ∈ uploadFile w false gct fp bn op ct ∧
    Event.successUploadBytes w.localFileSize ∈ uploadFile w false gct fp bn op ct ∧
    (∀ n, Event.successUploadBytes n ∈ uploadFile w false gct fp bn op ct →
       n = w.localFileSize) ∧
    (∀ n, Event.copy n ∈ uploadFile w false gct fp bn op ct → n = w.localFileSize) ∧
    Event.successUploadBytes w.localFileSize ∈
      uploaderUploadFile w false gct fp ct bn op kp ∧
    (∀ n, Event.successUploadBytes n ∈ uploaderUploadFile w false gct fp ct bn op kp →
       n = w.localFileSize) := by
  obtain ⟨cOk, oOk, sE, sR, eS, crOk, bkA, objPre, cpOk, sz, wcOk, objPost, rdOk, rs, dcOk, rcOk⟩ := w
  by_cases hg : gct = "" <;> simp_all [uploadFile, uploaderUploadFile]

/-- Witness for C9: the concrete 2-byte upload reports exactly 2 bytes in
both variants. -/
theorem upload_reports_exact_size_witness :
    Event.successUploadBytes 2 ∈ uploadFile wOk false "" "a.txt" "b" "o" "" ∧
    Event.successUploadBytes 2 ∈
      uploaderUploadFile wOk false "" "a.txt" "" "b" "o" "k.json" :=
  ⟨(upload_reports_exact_size wOk "" "a.txt" "b" "o" "" "k.json" rfl rfl rfl
      rfl).2.1,
   (upload_reports_exact_size wOk "" "a.txt" "b" "o" "" "k.json" rfl rfl rfl
      rfl).2.2.2.2.1⟩

/-- C8: the dual-variant action dispatch is case-insensitive: every string
whose character-wise case fold equals that of `"upload"` enters the upload
operation, every one matching `"download"` enters the download operation,
and every other value makes the run end with the fatal wrong-action error. -/
theorem action_dispatch_case_insensitive (cfg : AppFlagStruct) (w : World)
    (hm : ¬(cfg.actionType = "" ∨ cfg.filePath = "" ∨ cfg.bucketName = "" ∨
            cfg.objectPath = ""))
    (hk : ¬(¬cfg.publicRequest ∧ cfg.keyPath = ""))
    (hc : w.clientOk = true) :
    (foldLower cfg.actionType = foldLower Upload →
       Event.fileOpen cfg.filePath ∈ loaderMain cfg w) ∧
    (foldLower cfg.actionType = foldLower Download →
       Event.statFile cfg.filePath ∈ loaderMain cfg w) ∧
    (foldLower cfg.actionType ≠ foldLower Upload →
     foldLower cfg.actionType ≠ foldLower Download →
       lastEvent (loaderMain cfg w) = some Event.fatalWrongAction) := by
  refine ⟨fun h => ?_, fun h => ?_, fun h1 h2 => ?_⟩
  · have hfu : eqFold cfg.actionType Upload = true := by
      rw [eqFold, beq_iff_eq]; exact h
    by_cases hp : cfg.publicRequest = true <;> by_cases hkk : cfg.keyPath = "" <;>
      simp_all [loaderMain, createClient, uploadFile]
  · have hfd : eqFold cfg.actionType Download = true := by
      rw [eqFold, beq_iff_eq]; exact h
    have hfu : eqFold cfg.actionType Upload = false :=
      eqFold_download_not_upload _ hfd
    by_cases hp : cfg.publicRequest = true <;> by_cases hkk : cfg.keyPath = "" <;>
      simp_all [loaderMain, createClient, downloadFile]
  · have hfu : eqFold cfg.actionType Upload = false := by
      rw [eqFold, beq_eq_false_iff_ne]; exact h1
    have hfd : eqFold cfg.actionType Download = false := by
      rw [eqFold, beq_eq_false_iff_ne]; exact h2
    by_cases hp : cfg.publicRequest = true <;> by_cases hkk : cfg.keyPath = "" <;>
      simp_all [loaderMain, createClient, lastEvent]

/-- Witness for C8: `"UpLoAd"` selects the upload, `"DOWNLOAD"` selects the
download, and `"copy"` dies with the wrong-action error. -/
theorem action_dispatch_case_insensitive_witness :
    Event.fileOpen "a.txt" ∈ loaderMain cfgUpMixed wOk ∧
    Event.statFile "out.txt" ∈ loaderMain cfgDownMixed wOk ∧
    lastEvent (loaderMain cfgWrong wOk) = some Event.fatalWrongAction :=
  ⟨(action_dispatch_case_insensitive cfgUpMixed wOk (by decide) (by decide)
      rfl).1 (by decide),
   (action_dispatch_case_insensitive cfgDownMixed wOk (by decide) (by decide)
      rfl).2.1 (by decide),
   (action_dispatch_case_insensitive cfgWrong wOk (by decide) (by decide)
      rfl).2.2 (by decide) (by decide)⟩

/-- C10: when the mandatory and credential checks pass but the action value
matches neither keyword, the session context and the storage client are
constructed first and the run then ends with the fatal wrong-action error,
never invoking the context cancel or the client close. -/
theorem wrong_action_client_never_released (cfg : AppFlagStruct) (w : World)
    (hm : ¬(cfg.actionType = "" ∨ cfg.filePath = "" ∨ cfg.bucketName = "" ∨
            cfg.objectPath = ""))
    (hk : ¬(¬cfg.publicRequest ∧ cfg.keyPath = ""))
    (hc : w.clientOk = true)
    (hu : eqFold cfg.actionType Upload = false)
    (hd : eqFold cfg.actionType Download = false) :
    ((cfg.publicRequest = true ∧ Event.clientAnon ∈ loaderMain cfg w) ∨
     (cfg.publicRequest = false ∧ Event.clientAuth cfg.keyPath ∈ loaderMain cfg w)) ∧
    (∃ s, Event.ctxCreate s ∈ loaderMain cfg w) ∧
    lastEvent (loaderMain cfg w) = some Event.fatalWrongAction ∧
    (loaderMain cfg w).countP isCancel = 0 ∧
    (loaderMain cfg w).countP isClientClose = 0 := by
  by_cases hp : cfg.publicRequest = true <;> by_cases hkk : cfg.keyPath = "" <;>
    simp_all [loaderMain, createClient, lastEvent, List.countP_cons,
      List.countP_append]

/-- Witness for C10: the concrete wrong-action run builds the client, dies
with the wrong-action error and never closes the client. -/
theorem wrong_action_client_never_released_witness :
    (∃ s, Event.ctxCreate s ∈ loaderMain cfgWrong wOk) ∧
    (loaderMain cfgWrong wOk).countP isClientClose = 0 :=
  ⟨(wrong_action_client_never_released cfgWrong wOk (by decide) (by decide) rfl
      (by decide) (by decide)).2.1,
   (wrong_action_client_never_released cfgWrong wOk (by decide) (by decide) rfl
      (by decide) (by decide)).2.2.2.2⟩

end Loader
